import Mathlib

/-!
Shallow embedding of the workflow-orchestration core of the CRM repository:
the Job record and its status strings (marketing/models.py), the allocation
engine (allocator/views.py `_process_job_allocation`, `switch_writer`,
`completed_jobs_allocator`'s self-heal pass), the writer task selection
(writer/views.py `select_task`), the process finishing submission
(process/views.py `submit_process_file`), the AI-summary gate
(marketing/views.py `generate_ai_summary` together with
`Job.calculate_degree` / `Job.can_regenerate_summary`), and the tiered
identifier generator (`Job.generate_system_id`).

Statuses, roles and allocation states are kept as the literal strings the
Python code compares against (including the capitalised `"Review"` choice),
timestamps are integers with the usual order, and the Django ORM collections
become lists inside a `Store`.  Each view function becomes a pure function
from a `Store` (plus the request parameters) to `Except error Store`; an
`.error` result models the view returning early with an error message, before
any write happens.
-/

namespace CRM

/-- A user account (`accounts.CustomUser`): only the id and the role string
(`"writer"`, `"process"`, ...) matter to the embedded operations. -/
structure AUser where
  uid : Nat
  role : String
  deriving Repr, DecidableEq

/-- The marketing `Job` row (marketing/models.py).  Fields that none of the
embedded operations read or write (category, software, level, amounts,
customer data, form timestamps) are omitted.  `status` is the raw string
stored in the CharField. -/
structure MJob where
  systemId : String
  jobId : String
  createdBy : Nat
  status : String
  topic : Option String
  wordCount : Option Int
  referencingStyle : Option String
  writingStyle : Option String
  jobSummary : Option String
  aiSummaryVersion : Nat
  aiSummaryGeneratedAt : List Int
  jobCardDegree : Nat
  aiSummaryRequestedAt : Option Int
  aiSummaryAcceptedAt : Option Int
  expectedDeadline : Option Int
  strictDeadline : Option Int
  allocatedTo : Option Nat
  allocatedToProcess : Option Nat
  allocatedToProcessAt : Option Int
  writerSelectedAt : Option Int
  deriving Repr, DecidableEq

/-- A `JobAllocation` row (allocator/models.py). -/
structure JobAllocation where
  aid : Nat
  marketingJob : String
  allocatedTo : Nat
  allocatedBy : Nat
  allocationType : String
  startDateTime : Int
  endDateTime : Int
  status : String
  allocatedAt : Int
  completedAt : Option Int
  notes : String
  deriving Repr, DecidableEq

/-- An `AllocationActionLog` row (allocator/models.py); of the JSON `details`
only the old/new assignee ids recorded by `switch_writer` are kept. -/
structure AllocationActionLog where
  allocationAid : Nat
  action : String
  performedBy : Nat
  detailsOldAssignee : Option Nat
  detailsNewAssignee : Option Nat
  deriving Repr, DecidableEq

/-- A `JobActionLog` row (marketing side audit log). -/
structure JobActionLog where
  jobSystemId : String
  action : String
  performedBy : Nat
  deriving Repr, DecidableEq

/-- A `JobSummaryVersion` row: the immutable snapshot appended per AI-summary
generation attempt. -/
structure JobSummaryVersion where
  jobSystemId : String
  versionNumber : Nat
  topic : Option String
  wordCount : Option Int
  referencingStyle : Option String
  writingStyle : Option String
  jobSummary : Option String
  degree : Nat
  deriving Repr, DecidableEq

/-- The persistent state: every ORM collection the embedded operations touch.
`processSubmissions` counts the rows of the process-app submission table
(their contents are irrelevant to the properties below). -/
structure Store where
  users : List AUser
  jobs : List MJob
  allocations : List JobAllocation
  allocationActionLogs : List AllocationActionLog
  jobActionLogs : List JobActionLog
  summaryVersions : List JobSummaryVersion
  processSubmissions : Nat
  nextAllocationAid : Nat
  deriving Repr, DecidableEq

/-- `Job.objects.get(system_id=...)`. -/
def findJob (s : Store) (sysId : String) : Option MJob :=
  s.jobs.find? (fun j => j.systemId == sysId)

/-- `CustomUser.objects.get(id=member_id, role=member_role)`. -/
def findUser (s : Store) (uid : Nat) (role : String) : Option AUser :=
  s.users.find? (fun u => u.uid == uid && u.role == role)

/-! ## Allocation engine: `_process_job_allocation` (allocator/views.py) -/

/-- The early-return outcomes of `_process_job_allocation`. -/
inductive AllocError where
  | jobNotFound
  | missingFields
  | memberNotFound
  | startInPast
  | endNotAfterStart
  | endAfterDeadline
  deriving Repr, DecidableEq

/-- Allocation type chosen by `_process_job_allocation` purely from the job
status: `"Review"` means a process allocation, anything else a writer
allocation. -/
def allocationTypeFor (job : MJob) : String :=
  if job.status == "Review" then "process" else "writer"

/-- The `job.expected_deadline and end_dt > job.expected_deadline` guard,
shared by the view and by `JobAllocation.clean`. -/
def deadlineExceeded (job : MJob) (endD : Int) : Bool :=
  match job.expectedDeadline with
  | some d => endD > d
  | none => false

/-- `_process_job_allocation(request, job)`: validates the posted member and
window, then creates an active `JobAllocation`, moves the job to
`"process"`/`"allocated"`, sets the matching assignee pointer and appends the
audit rows — all inside one transaction.  An `.error` models the view
redirecting with an error message before any write. -/
def processJobAllocation (now : Int) (s : Store) (sysId : String)
    (memberId : Option Nat) (startDt endDt : Option Int) (notes : String)
    (requestUser : Nat) : Except AllocError Store :=
  match findJob s sysId with
  | none => .error .jobNotFound
  | some job =>
    let allocType := allocationTypeFor job
    match memberId, startDt, endDt with
    | some mid, some startD, some endD =>
      match findUser s mid allocType with
      | none => .error .memberNotFound
      | some member =>
        if startD < now then .error .startInPast
        else if endD ≤ startD then .error .endNotAfterStart
        else if deadlineExceeded job endD then .error .endAfterDeadline
        else
          let alloc : JobAllocation :=
            { aid := s.nextAllocationAid
              marketingJob := job.systemId
              allocatedTo := member.uid
              allocatedBy := requestUser
              allocationType := allocType
              startDateTime := startD
              endDateTime := endD
              status := "active"
              allocatedAt := now
              completedAt := none
              notes := notes }
          let job' :=
            if allocType == "process" then
              { job with status := "process", allocatedToProcess := some member.uid,
                         allocatedToProcessAt := some now }
            else
              { job with status := "allocated", allocatedTo := some member.uid }
          let createdLog : AllocationActionLog :=
            { allocationAid := alloc.aid, action := "created", performedBy := requestUser,
              detailsOldAssignee := none, detailsNewAssignee := some member.uid }
          let jobLogs' :=
            if allocType == "process" then
              s.jobActionLogs ++
                [{ jobSystemId := job.systemId, action := "allocated",
                   performedBy := requestUser }]
            else s.jobActionLogs
          .ok { s with
                jobs := s.jobs.map (fun j => if j.systemId == job.systemId then job' else j)
                allocations := s.allocations ++ [alloc]
                allocationActionLogs := s.allocationActionLogs ++ [createdLog]
                jobActionLogs := jobLogs'
                nextAllocationAid := s.nextAllocationAid + 1 }
    | _, _, _ => .error .missingFields

/-- Number of rows `JobAllocation.objects.filter(marketing_job=..., allocation_type=..., status='active')` would return. -/
def countActiveAllocations (s : Store) (sysId : String) (allocType : String) : Nat :=
  (s.allocations.filter (fun a =>
    a.marketingJob == sysId && a.allocationType == allocType && a.status == "active")).length

/-! ## Reassignment: `switch_writer` (allocator/views.py) -/

/-- `JobAllocation.objects.get(id=...)` (the view's `get_object_or_404`). -/
def findAllocation (s : Store) (allocationId : Nat) : Option JobAllocation :=
  s.allocations.find? (fun a => a.aid == allocationId)

/-- `JobAllocation.clean` (allocator/models.py), run by the overridden
`save()`: fails unless the window is strictly increasing and, when the job has
an `expected_deadline`, ends by it.  The role-mismatch branches only log a
warning, so they do not appear here. -/
def allocationCleanOk (job : MJob) (a : JobAllocation) : Bool :=
  !(decide (a.endDateTime ≤ a.startDateTime)) && !(deadlineExceeded job a.endDateTime)

/-- The early-return outcomes of `switch_writer`. -/
inductive SwitchError where
  | allocationNotFound
  | noWriterSelected
  | writerNotFound
  | jobNotFound
  | validationFailed
  deriving Repr, DecidableEq

/-- `switch_writer(request, allocation_id)`: re-points the existing allocation
and the job's `allocated_to` at the new writer inside one transaction and
appends one `reassigned` action-log row carrying the old and new writer. -/
def switchWriter (s : Store) (allocationId : Nat) (newWriterId : Option Nat)
    (requestUser : Nat) : Except SwitchError Store :=
  match findAllocation s allocationId with
  | none => .error .allocationNotFound
  | some alloc =>
    match newWriterId with
    | none => .error .noWriterSelected
    | some nwid =>
      match findUser s nwid "writer" with
      | none => .error .writerNotFound
      | some newWriter =>
        match findJob s alloc.marketingJob with
        | none => .error .jobNotFound
        | some job =>
          if !(allocationCleanOk job { alloc with allocatedTo := newWriter.uid }) then
            .error .validationFailed
          else
            .ok { s with
              allocations := s.allocations.map (fun a =>
                if a.aid == allocationId then { a with allocatedTo := newWriter.uid } else a)
              jobs := s.jobs.map (fun j =>
                if j.systemId == alloc.marketingJob then
                  { j with allocatedTo := some newWriter.uid }
                else j)
              allocationActionLogs := s.allocationActionLogs ++
                [{ allocationAid := allocationId, action := "reassigned",
                   performedBy := requestUser,
                   detailsOldAssignee := some alloc.allocatedTo,
                   detailsNewAssignee := some newWriter.uid }] }

/-! ## Finishing submission: `submit_process_file` (process/views.py) -/

/-- The early-return outcomes of `submit_process_file`. -/
inductive ProcessSubmitError where
  | jobNotFound
  | accessDenied
  | notInReview
  | noFileUploaded
  deriving Repr, DecidableEq

/-- `submit_process_file(request, system_id)`: requires the caller to hold an
active process allocation on the job and the job to be `in_review`; stores the
uploaded files, moves the job to `completed` and closes every still-active
allocation of the job with `completed_at = now`. -/
def submitProcessFile (now : Int) (s : Store) (sysId : String) (requestUser : Nat)
    (uploadedFiles : Nat) : Except ProcessSubmitError Store :=
  match findJob s sysId with
  | none => .error .jobNotFound
  | some mjob =>
    match s.allocations.find? (fun a =>
        a.marketingJob == sysId && a.allocatedTo == requestUser &&
        a.allocationType == "process" && a.status == "active") with
    | none => .error .accessDenied
    | some _ =>
      if mjob.status != "in_review" then .error .notInReview
      else if uploadedFiles == 0 then .error .noFileUploaded
      else
        .ok { s with
          jobs := s.jobs.map (fun j =>
            if j.systemId == sysId then { j with status := "completed" } else j)
          allocations := s.allocations.map (fun a =>
            if a.marketingJob == sysId && a.status == "active" then
              { a with status := "completed", completedAt := some now }
            else a)
          processSubmissions := s.processSubmissions + uploadedFiles }

/-! ## Writer task selection: `select_task` (writer/views.py) -/

/-- The early-return outcomes of `select_task`. -/
inductive SelectTaskError where
  | allocationNotFound
  | wrongStatus
  deriving Repr, DecidableEq

/-- `select_task(request, system_id)`: the writer must hold an active writer
allocation on the job; the job must currently be `allocated`, and is then
moved to `in_progress` with `writer_selected_at = now`.  Any other current
status is rejected with "Task cannot be selected". -/
def selectTask (now : Int) (s : Store) (sysId : String) (writerUser : Nat) :
    Except SelectTaskError Store :=
  match s.allocations.find? (fun a =>
      a.marketingJob == sysId && a.allocatedTo == writerUser &&
      a.allocationType == "writer" && a.status == "active") with
  | none => .error .allocationNotFound
  | some _ =>
    match findJob s sysId with
    | none => .error .allocationNotFound
    | some job =>
      if job.status != "allocated" then .error .wrongStatus
      else
        .ok { s with jobs := s.jobs.map (fun j =>
          if j.systemId == sysId then
            { j with status := "in_progress", writerSelectedAt := some now }
          else j) }

/-! ## Reconciliation sweep (self-heal pass of `completed_jobs_allocator`) -/

/-- Ids of the jobs currently in status `completed` (fetched first because
Djongo cannot join inside `update()`). -/
def completedJobIds (s : Store) : List String :=
  (s.jobs.filter (fun j => j.status == "completed")).map (fun j => j.systemId)

/-- Whether the self-heal pass repairs allocation `a`: it belongs to a
completed job and is still active. -/
def needsRepair (s : Store) (a : JobAllocation) : Bool :=
  (completedJobIds s).contains a.marketingJob && a.status == "active"

/-- The self-heal pass at the top of `completed_jobs_allocator`
(allocator/views.py): every still-active allocation of a completed job is
closed as completed with `completed_at = now`.  The second component is the
number of repaired rows (the value Django's `update()` returns). -/
def reconcileAllocations (now : Int) (s : Store) : Store × Nat :=
  ({ s with allocations := s.allocations.map (fun a =>
      if needsRepair s a then { a with status := "completed", completedAt := some now }
      else a) },
   (s.allocations.filter (needsRepair s)).length)

/-! ## AI-summary gate: `generate_ai_summary` (marketing/views.py) -/

/-- Python truthiness of an optional string field: `None` and `""` are falsy. -/
def strPresent : Option String → Bool
  | none => false
  | some t => t != ""

/-- Python truthiness of the optional integer `word_count`: `None` and `0` are
falsy. -/
def intPresent : Option Int → Bool
  | none => false
  | some n => n != 0

/-- `Job.calculate_degree` (marketing/models.py): the number of the five
summary fields {topic, word_count, referencing_style, writing_style,
job_summary} that are falsy. -/
def calculateDegree (j : MJob) : Nat :=
  ([strPresent j.topic, intPresent j.wordCount, strPresent j.referencingStyle,
    strPresent j.writingStyle, strPresent j.jobSummary].filter (fun b => !b)).length

/-- `Job.can_regenerate_summary` (marketing/models.py): at most 3 versions. -/
def canRegenerateSummary (j : MJob) : Bool :=
  decide (j.aiSummaryVersion < 3)

/-- The structured summarizer result after parsing and normalisation
(`word_count` already passed through `_normalize_word_count`).  Fields the
degree does not read (category, level, software) are omitted. -/
structure SummaryResult where
  topic : Option String
  wordCount : Option Int
  referencingStyle : Option String
  writingStyle : Option String
  jobSummary : Option String
  deriving Repr, DecidableEq

/-- The part of `generate_ai_summary`'s success payload the caller acts on. -/
structure GenerationInfo where
  degree : Nat
  version : Nat
  autoAccepted : Bool
  autoRedirect : Bool
  deriving Repr, DecidableEq

/-- The early-return outcomes of `generate_ai_summary`. -/
inductive SummaryError where
  | jobNotFound
  | versionLimitExceeded
  deriving Repr, DecidableEq

/-- `generate_ai_summary(request)`: refuses once `ai_summary_version` has
reached 3; otherwise copies the summarizer result onto the job, increments the
version, recomputes the degree, appends one `JobSummaryVersion` snapshot, and
applies the auto-accept policy (degree 0 accepts and redirects; version 3
accepts without redirecting; otherwise no auto-accept). -/
def generateAiSummary (now : Int) (s : Store) (sysId : String) (requestUser : Nat)
    (res : SummaryResult) : Except SummaryError (Store × GenerationInfo) :=
  match s.jobs.find? (fun j => j.systemId == sysId && j.createdBy == requestUser) with
  | none => .error .jobNotFound
  | some job =>
    if !(canRegenerateSummary job) then .error .versionLimitExceeded
    else
      let job1 := { job with
        aiSummaryRequestedAt := some now
        topic := res.topic
        wordCount := res.wordCount
        referencingStyle := res.referencingStyle
        writingStyle := res.writingStyle
        jobSummary := res.jobSummary
        aiSummaryVersion := job.aiSummaryVersion + 1
        aiSummaryGeneratedAt := job.aiSummaryGeneratedAt ++ [now] }
      let degree := calculateDegree job1
      let job2 := { job1 with jobCardDegree := degree }
      let versionRecord : JobSummaryVersion :=
        { jobSystemId := job.systemId, versionNumber := job2.aiSummaryVersion,
          topic := job2.topic, wordCount := job2.wordCount,
          referencingStyle := job2.referencingStyle, writingStyle := job2.writingStyle,
          jobSummary := job2.jobSummary, degree := degree }
      let autoAccepted := degree == 0 || decide (job2.aiSummaryVersion ≥ 3)
      let autoRedirect := degree == 0
      let job3 :=
        if autoAccepted then
          { job2 with aiSummaryAcceptedAt := some now, status := "pending" }
        else job2
      let genLog : JobActionLog :=
        { jobSystemId := job.systemId, action := "ai_summary_generated",
          performedBy := requestUser }
      let acceptLogs : List JobActionLog :=
        if autoAccepted then
          [{ jobSystemId := job.systemId, action := "ai_summary_accepted",
             performedBy := requestUser }]
        else []
      .ok ({ s with
              jobs := s.jobs.map (fun j => if j.systemId == job.systemId then job3 else j)
              summaryVersions := s.summaryVersions ++ [versionRecord]
              jobActionLogs := s.jobActionLogs ++ [genLog] ++ acceptLogs },
            { degree := degree, version := job2.aiSummaryVersion,
              autoAccepted := autoAccepted, autoRedirect := autoRedirect })

/-! ## Identifier generator: `Job.generate_system_id` (marketing/models.py) -/

/-- The candidate alphabet `string.ascii_uppercase + string.digits`. -/
def idAlphabet : List Char := "ABCDEFGHIJKLMNOPQRSTUVWXYZ0123456789".toList

/-- One random-tier candidate: `"CH-"` plus six draws from `idAlphabet`;
`pick` is the stream of random draws, attempt `k` consuming draws
`6*k .. 6*k+5`. -/
def randomCandidate (pick : Nat → Fin 36) (attempt : Nat) : String :=
  "CH-" ++ String.mk ((List.range 6).map (fun i =>
    idAlphabet.getD (pick (6 * attempt + i)).val 'A'))

/-- Decimal digit character `d % 10`. -/
def digitChar (d : Nat) : Char := Char.ofNat (48 + d % 10)

/-- Zero-padded six-digit decimal rendering: for `n < 1000000` this is exactly
Python's `f"{n:06d}"`. -/
def pad6 (n : Nat) : String :=
  String.mk [digitChar (n / 100000), digitChar (n / 10000), digitChar (n / 1000),
             digitChar (n / 100), digitChar (n / 10), digitChar n]

/-- Timestamp-tier candidate for sequence offset `seq`.  The source formats
`base_timestamp` directly when `seq == 0` and `(base + seq) % 1000000`
otherwise; since `base < 1000000` the two coincide at `seq = 0`. -/
def timestampCandidate (timeMillis : Nat) (seq : Nat) : String :=
  "CH-" ++ pad6 ((timeMillis % 1000000 + seq) % 1000000)

/-- Upper-cased hexadecimal character: the first six characters of
`str(uuid.uuid4())` are lowercase hex digits, and `.upper()` maps them into
`0-9A-F`. -/
def hexUpperChar (h : Fin 16) : Char :=
  if h.val < 10 then Char.ofNat (48 + h.val) else Char.ofNat (65 + (h.val - 10))

/-- UUID-tier candidate (no uniqueness re-check in the source). -/
def uuidCandidate (uuidHex : Fin 6 → Fin 16) : String :=
  "CH-" ++ String.mk ((List.finRange 6).map (fun i => hexUpperChar (uuidHex i)))

/-- `Job.generate_system_id(max_retries=100)`: up to 100 random-tier attempts
checked for uniqueness against the store, then up to 100 timestamp-tier
attempts, then the UUID fallback.  `taken c` models
`Job.objects.filter(system_id=c).count() != 0`. -/
def generateSystemId (pick : Nat → Fin 36) (taken : String → Bool)
    (timeMillis : Nat) (uuidHex : Fin 6 → Fin 16) : String :=
  match ((List.range 100).map (randomCandidate pick)).find? (fun c => !(taken c)) with
  | some c => c
  | none =>
    match ((List.range 100).map (timestampCandidate timeMillis)).find? (fun c => !(taken c)) with
    | some c => c
    | none => uuidCandidate uuidHex

/-- Characters allowed after the `"CH-"` prefix: uppercase letters and digits. -/
def isUpperAlnum (c : Char) : Bool :=
  (decide ('A' ≤ c) && decide (c ≤ 'Z')) || (decide ('0' ≤ c) && decide (c ≤ '9'))

/-- `s` matches the regular expression `CH-[A-Z0-9]{6}` exactly. -/
def matchesSystemIdPattern (s : String) : Bool :=
  match s.toList with
  | 'C' :: 'H' :: '-' :: rest => rest.length == 6 && rest.all isUpperAlnum
  | _ => false

/-! ## Concrete stores used to instantiate the theorems below -/

/-- A job row with every optional field empty; the individual scenarios below
override the fields they need. -/
def baseJob : MJob :=
  { systemId := "CH-AAAAAA", jobId := "J1", createdBy := 7, status := "draft",
    topic := none, wordCount := none, referencingStyle := none,
    writingStyle := none, jobSummary := none, aiSummaryVersion := 0,
    aiSummaryGeneratedAt := [], jobCardDegree := 5,
    aiSummaryRequestedAt := none, aiSummaryAcceptedAt := none,
    expectedDeadline := none, strictDeadline := none, allocatedTo := none,
    allocatedToProcess := none, allocatedToProcessAt := none,
    writerSelectedAt := none }

/-- A store holding two writers and two process members and no job yet. -/
def baseStore : Store :=
  { users := [⟨1, "writer"⟩, ⟨2, "writer"⟩, ⟨3, "process"⟩, ⟨4, "process"⟩],
    jobs := [], allocations := [], allocationActionLogs := [],
    jobActionLogs := [], summaryVersions := [], processSubmissions := 0,
    nextAllocationAid := 10 }

/-- The base job in status `unallocated`. -/
def unallocatedJob : MJob := { baseJob with status := "unallocated" }

/-- Store for the duplicate-allocation scenario: one unallocated job. -/
def dupStore : Store := { baseStore with jobs := [unallocatedJob] }

/-- The base job unallocated with expected deadline at instant 100. -/
def deadlineJob : MJob :=
  { baseJob with status := "unallocated",
                 expectedDeadline := some 100 }

/-- Store for the window-validation scenario. -/
def windowStore : Store := { baseStore with jobs := [deadlineJob] }

/-- The base job already completed. -/
def completedJob : MJob := { baseJob with status := "completed" }

/-- Store for the status-precondition scenario: a job already completed. -/
def completedJobStore : Store := { baseStore with jobs := [completedJob] }

/-- The base job in review stage with both assignee pointers set. -/
def inReviewJob : MJob :=
  { baseJob with status := "in_review",
                 allocatedTo := some 1,
                 allocatedToProcess := some 3 }

/-- An active writer allocation (aid 20) of the base job held by writer 1. -/
def writerAlloc : JobAllocation :=
  { aid := 20, marketingJob := "CH-AAAAAA", allocatedTo := 1, allocatedBy := 9,
    allocationType := "writer", startDateTime := 10, endDateTime := 20,
    status := "active", allocatedAt := 0, completedAt := none, notes := "n" }

/-- An active process allocation (aid 21) of the base job held by user 3. -/
def processAlloc : JobAllocation :=
  { aid := 21, marketingJob := "CH-AAAAAA", allocatedTo := 3, allocatedBy := 9,
    allocationType := "process", startDateTime := 30, endDateTime := 40,
    status := "active", allocatedAt := 0, completedAt := none, notes := "" }

/-- Store for the finishing-submission scenario: a job in review with one
still-active writer allocation and one active process allocation. -/
def reviewStore : Store :=
  { baseStore with jobs := [inReviewJob],
                   allocations := [writerAlloc, processAlloc] }

/-- The base job allocated to writer 1. -/
def allocatedJob : MJob :=
  { baseJob with status := "allocated",
                 allocatedTo := some 1 }

/-- Store for the reassignment scenario: an allocated job with one active
writer allocation (aid 20) held by writer 1. -/
def reassignStore : Store :=
  { baseStore with jobs := [allocatedJob],
                   allocations := [writerAlloc] }

/-- Store for the task-selection scenario: an allocated job whose active
writer allocation belongs to writer 1. -/
def selectStore : Store := reassignStore

/-- Store for the AI-summary scenarios: a fresh draft job created by user 7. -/
def draftStore : Store := { baseStore with jobs := [baseJob] }

/-- The base job after three summary generations. -/
def exhaustedJob : MJob := { baseJob with aiSummaryVersion := 3 }

/-- Store for the version-limit scenario. -/
def exhaustedStore : Store := { baseStore with jobs := [exhaustedJob] }

/-- A summarizer result with all five fields populated. -/
def fullResult : SummaryResult :=
  { topic := some "T", wordCount := some 1500, referencingStyle := some "apa",
    writingStyle := some "essay", jobSummary := some "S" }

/-- The store after writer 1 selects the task in `selectStore`. -/
def selectedStore : Store :=
  (selectTask 0 selectStore "CH-AAAAAA" 1).toOption.getD selectStore

/-- The store after process member 3 submits the finishing files in
`reviewStore`. -/
def closedStore : Store :=
  (submitProcessFile 99 reviewStore "CH-AAAAAA" 3 2).toOption.getD reviewStore

/-- The store after allocation 20 in `reassignStore` is switched to writer 2. -/
def reassignedStore : Store :=
  (switchWriter reassignStore 20 (some 2) 9).toOption.getD reassignStore

/-- The store after writer 1 is allocated to the job of `dupStore`. -/
def dupStore1 : Store :=
  (processJobAllocation 0 dupStore "CH-AAAAAA" (some 1) (some 10) (some 20) "" 9).toOption.getD
    dupStore

/-- The store after a second writer allocation of the very same job. -/
def dupStore2 : Store :=
  (processJobAllocation 0 dupStore1 "CH-AAAAAA" (some 2) (some 10) (some 20) "" 9).toOption.getD
    dupStore1

/-- The job of `dupStore` after the first allocation. -/
def allocatedOnceJob : MJob :=
  { unallocatedJob with status := "allocated",
                        allocatedTo := some 1 }

/-- The store/info pair produced by generating a fully populated summary on
`draftStore`. -/
def genResultPair : Store × GenerationInfo :=
  (generateAiSummary 5 draftStore "CH-AAAAAA" 7 fullResult).toOption.getD
    (draftStore, { degree := 0, version := 0, autoAccepted := false, autoRedirect := false })

end CRM

namespace CRM

/-! ## Helper lemmas -/

theorem isUpperAlnum_getD (k : Nat) : isUpperAlnum (idAlphabet.getD k 'A') = true := by
  unfold List.getD
  cases h : idAlphabet[k]? with
  | none => simp [h]; decide
  | some c =>
    have hc : c ∈ idAlphabet := List.getElem?_mem h
    have hall := (by decide : ∀ c ∈ idAlphabet, isUpperAlnum c = true)
    simp [h, hall c hc]

theorem isUpperAlnum_digitChar (d : Nat) : isUpperAlnum (digitChar d) = true := by
  unfold digitChar
  have h : d % 10 < 10 := Nat.mod_lt _ (by norm_num)
  set r := d % 10 with hr
  interval_cases r <;> decide

theorem matches_randomCandidate (pick : Nat → Fin 36) (attempt : Nat) :
    matchesSystemIdPattern (randomCandidate pick attempt) = true := by
  have h : ("CH-" ++ String.mk ((List.range 6).map (fun i =>
      idAlphabet.getD (pick (6 * attempt + i)).val 'A'))).toList
      = 'C' :: 'H' :: '-' :: (List.range 6).map (fun i =>
      idAlphabet.getD (pick (6 * attempt + i)).val 'A') := rfl
  unfold randomCandidate matchesSystemIdPattern
  rw [h]
  simp [List.all_eq_true]
  intro c i
  have := isUpperAlnum_getD (pick (6 * attempt + c)).val
  simpa [List.getD] using this

theorem matches_timestampCandidate (t seq : Nat) :
    matchesSystemIdPattern (timestampCandidate t seq) = true := by
  unfold timestampCandidate pad6
  unfold matchesSystemIdPattern
  simp [isUpperAlnum_digitChar]

theorem matches_uuidCandidate (u : Fin 6 → Fin 16) :
    matchesSystemIdPattern (uuidCandidate u) = true := by
  have hall : ∀ h : Fin 16, isUpperAlnum (hexUpperChar h) = true := by decide
  unfold uuidCandidate matchesSystemIdPattern
  simp [List.all_eq_true]
  intro c
  exact hall _

theorem find?_map_comm {α : Type} (l : List α) (q : α → Bool) (g : α → α)
    (hg : ∀ a, q a = true → q (g a) = true) :
    (l.map (fun a => if q a then g a else a)).find? q = (l.find? q).map g := by
  induction l with
  | nil => rfl
  | cons x t ih =>
    rw [List.map_cons]
    by_cases hx : q x = true
    · rw [if_pos hx, List.find?_cons_of_pos _ (hg x hx), List.find?_cons_of_pos _ hx]
      rfl
    · rw [if_neg hx, List.find?_cons_of_neg _ hx, List.find?_cons_of_neg _ hx, ih]

/-! ## C10 -/

/-- C10: `generate_system_id` never fails — it is a total function — and on
every input (any random stream, any occupancy of the store, any clock value,
any UUID) the returned string matches `CH-[A-Z0-9]{6}`: the random tier draws
from uppercase alphanumerics, the timestamp tier zero-pads six decimal
digits, and the single-attempt UUID tier upcases six hex digits. -/
theorem generate_system_id_pattern (pick : Nat → Fin 36) (taken : String → Bool)
    (timeMillis : Nat) (uuidHex : Fin 6 → Fin 16) :
    matchesSystemIdPattern (generateSystemId pick taken timeMillis uuidHex) = true := by
  unfold generateSystemId
  cases h1 : ((List.range 100).map (randomCandidate pick)).find? (fun c => !(taken c)) with
  | some c =>
    have hmem := List.mem_of_find?_eq_some h1
    rcases List.mem_map.mp hmem with ⟨a, _, rfl⟩
    exact matches_randomCandidate pick a
  | none =>
    cases h2 : ((List.range 100).map (timestampCandidate timeMillis)).find?
        (fun c => !(taken c)) with
    | some c =>
      have hmem := List.mem_of_find?_eq_some h2
      rcases List.mem_map.mp hmem with ⟨a, _, rfl⟩
      simp only []
      exact matches_timestampCandidate timeMillis a
    | none =>
      simp only []
      exact matches_uuidCandidate uuidHex

/-! ## C2 -/

/-- C2: `_process_job_allocation` rejects, before any write (the function
returns the error and no successor store), every window whose start is in the
past, every window whose end is not strictly after its start, and — when the
job carries an `expected_deadline` — every window ending after that
deadline. -/
theorem allocate_window_validation (now : Int) (s : Store) (sysId : String)
    (mid : Nat) (startD endD : Int) (notes : String) (u : Nat)
    (job : MJob) (member : AUser)
    (hjob : findJob s sysId = some job)
    (huser : findUser s mid (allocationTypeFor job) = some member) :
    (startD < now →
      processJobAllocation now s sysId (some mid) (some startD) (some endD) notes u
        = .error .startInPast) ∧
    (now ≤ startD → endD ≤ startD →
      processJobAllocation now s sysId (some mid) (some startD) (some endD) notes u
        = .error .endNotAfterStart) ∧
    (∀ d : Int, now ≤ startD → startD < endD → job.expectedDeadline = some d →
      d < endD →
      processJobAllocation now s sysId (some mid) (some startD) (some endD) notes u
        = .error .endAfterDeadline) := by
  refine ⟨fun h1 => ?_, fun h1 h2 => ?_, fun d h1 h2 h3 h4 => ?_⟩
  · simp [processJobAllocation, hjob, huser, h1]
  · simp [processJobAllocation, hjob, huser, not_lt.mpr h1, h2]
  · simp [processJobAllocation, hjob, huser, not_lt.mpr h1, not_le.mpr h2,
      deadlineExceeded, h3, h4]

/-- Witness for C2 at a concrete input: in `windowStore` (deadline 100) a
window starting at 10 with "now" at 50 is rejected as starting in the past,
a window [60, 55] is rejected as not increasing, and a window [60, 300] is
rejected as overshooting the deadline. -/
theorem allocate_window_validation_witness :
    findJob windowStore "CH-AAAAAA" = some deadlineJob ∧
    processJobAllocation 50 windowStore "CH-AAAAAA" (some 1) (some 10) (some 60) "" 9
        = .error .startInPast ∧
    processJobAllocation 50 windowStore "CH-AAAAAA" (some 1) (some 60) (some 55) "" 9
        = .error .endNotAfterStart ∧
    processJobAllocation 50 windowStore "CH-AAAAAA" (some 1) (some 60) (some 300) "" 9
        = .error .endAfterDeadline := by
  have h := allocate_window_validation 50 windowStore "CH-AAAAAA" 1 10 60 "" 9
    deadlineJob ⟨1, "writer"⟩ (by rfl) (by rfl)
  have h2 := allocate_window_validation 50 windowStore "CH-AAAAAA" 1 60 55 "" 9
    deadlineJob ⟨1, "writer"⟩ (by rfl) (by rfl)
  have h3 := allocate_window_validation 50 windowStore "CH-AAAAAA" 1 60 300 "" 9
    deadlineJob ⟨1, "writer"⟩ (by rfl) (by rfl)
  exact ⟨by rfl, h.1 (by decide), h2.2.1 (by decide) (by decide),
    h3.2.2 100 (by decide) (by decide) (by rfl) (by decide)⟩

/-! ## C5 -/

/-- C5: once `ai_summary_version` has reached 3, `generate_ai_summary`
returns the version-limit error before touching anything: no
`JobSummaryVersion` row is appended and the job row (its version included)
is left as it was, which the embedding expresses by the call producing
`.error` and no successor store. -/
theorem summary_version_limit (now : Int) (s : Store) (sysId : String) (u : Nat)
    (res : SummaryResult) (job : MJob)
    (hjob : s.jobs.find? (fun j => j.systemId == sysId && j.createdBy == u) = some job)
    (h3 : 3 ≤ job.aiSummaryVersion) :
    generateAiSummary now s sysId u res = .error .versionLimitExceeded := by
  have hcr : canRegenerateSummary job = false := by
    simp [canRegenerateSummary, not_lt.mpr h3]
  simp [generateAiSummary, hjob, hcr]

/-- Witness for C5: the fourth `RequestSummary` call on the concrete
exhausted job (version 3) fails with the version-limit error. -/
theorem summary_version_limit_witness :
    (3 ≤ exhaustedJob.aiSummaryVersion) ∧
    generateAiSummary 0 exhaustedStore "CH-AAAAAA" 7 fullResult
      = .error .versionLimitExceeded :=
  ⟨by decide, summary_version_limit 0 exhaustedStore "CH-AAAAAA" 7 fullResult
    exhaustedJob (by rfl) (by decide)⟩

/-! ## C9 -/

/-- C9 (amended): `select_task` moves a job from `allocated` to `in_progress`,
but it is not an idempotent no-op on an `in_progress` job: a successful select
implies the job was in status `allocated`, the job ends up `in_progress`, and
a second select of the same job by the same writer is rejected with the
"Task cannot be selected" error (it does succeed in changing no state, but it
does not succeed). -/
theorem select_task_not_idempotent (now now2 : Int) (s s1 : Store) (sysId : String)
    (w : Nat) (job : MJob) (hjob : findJob s sysId = some job)
    (hok : selectTask now s sysId w = .ok s1) :
    job.status = "allocated" ∧
    findJob s1 sysId
      = some { job with status := "in_progress", writerSelectedAt := some now } ∧
    selectTask now2 s1 sysId w = .error .wrongStatus := by
  have hjob2 : s.jobs.find? (fun j => j.systemId == sysId) = some job := hjob
  unfold selectTask at hok
  cases halloc : s.allocations.find? (fun a =>
      a.marketingJob == sysId && a.allocatedTo == w &&
      a.allocationType == "writer" && a.status == "active") with
  | none =>
    rw [halloc] at hok
    exact Except.noConfusion hok
  | some av =>
    rw [halloc, hjob] at hok
    dsimp only at hok
    by_cases hst : (job.status != "allocated") = true
    · rw [if_pos hst] at hok
      exact Except.noConfusion hok
    · have hstatus : job.status = "allocated" := by simpa using hst
      rw [if_neg hst] at hok
      injection hok with hok
      subst hok
      have hfind : findJob
          { s with jobs := s.jobs.map (fun j => if j.systemId == sysId then
              { j with status := "in_progress", writerSelectedAt := some now } else j) }
          sysId
          = some { job with status := "in_progress", writerSelectedAt := some now } := by
        unfold findJob
        dsimp only
        rw [find?_map_comm s.jobs (fun j => j.systemId == sysId)
            (fun j => { j with status := "in_progress", writerSelectedAt := some now })
            (fun j h => h), hjob2]
        rfl
      refine ⟨hstatus, hfind, ?_⟩
      unfold selectTask
      dsimp only
      rw [halloc, hfind]
      rfl

/-- Counterexample to C9 as stated: in the concrete `selectStore` the first
select succeeds and moves the job to `in_progress`, but the second select of
the very same job by the very same writer does not succeed — it is rejected
with the wrong-status error rather than being an idempotent no-op. -/
theorem select_task_second_call_counterexample :
    (selectTask 0 selectStore "CH-AAAAAA" 1).map (fun s1 =>
        ((findJob s1 "CH-AAAAAA").map (fun j => j.status),
         selectTask 5 s1 "CH-AAAAAA" 1))
      = .ok (some "in_progress", .error .wrongStatus) := by rfl

/-- Witness for the amended C9 at a concrete input. -/
theorem select_task_not_idempotent_witness :
    findJob selectStore "CH-AAAAAA" = some allocatedJob ∧
    selectTask 0 selectStore "CH-AAAAAA" 1 = .ok selectedStore ∧
    (allocatedJob.status = "allocated" ∧
     findJob selectedStore "CH-AAAAAA"
       = some { allocatedJob with status := "in_progress", writerSelectedAt := some 0 } ∧
     selectTask 5 selectedStore "CH-AAAAAA" 1 = .error .wrongStatus) :=
  ⟨by rfl, by rfl,
    select_task_not_idempotent 0 5 selectStore selectedStore "CH-AAAAAA" 1 allocatedJob
      (by rfl) (by rfl)⟩

/-! ## C8 -/

/-- C8: the reconciliation sweep closes, as completed (with
`completed_at = now`), every still-active allocation belonging to a job in
status `completed`; after one run no allocation of a completed job is still
active, so a second consecutive run — with no intervening writes — repairs
exactly zero records. -/
theorem reconcile_closes_and_idempotent (now now2 : Int) (s : Store) :
    (∀ a ∈ s.allocations, needsRepair s a = true →
        { a with status := "completed", completedAt := some now }
          ∈ (reconcileAllocations now s).1.allocations) ∧
    (∀ a ∈ (reconcileAllocations now s).1.allocations,
        needsRepair (reconcileAllocations now s).1 a = false) ∧
    (reconcileAllocations now2 (reconcileAllocations now s).1).2 = 0 := by
  have hjobs : (reconcileAllocations now s).1.jobs = s.jobs := rfl
  have hrepair : ∀ a, needsRepair (reconcileAllocations now s).1 a = needsRepair s a := by
    intro a
    unfold needsRepair completedJobIds
    rw [hjobs]
  have halls : (reconcileAllocations now s).1.allocations
      = s.allocations.map (fun a =>
          if needsRepair s a then { a with status := "completed", completedAt := some now }
          else a) := rfl
  have h2 : ∀ a ∈ (reconcileAllocations now s).1.allocations,
      needsRepair (reconcileAllocations now s).1 a = false := by
    intro a' ha'
    rw [halls] at ha'
    rcases List.mem_map.mp ha' with ⟨a, _, rfl⟩
    rw [hrepair]
    by_cases h : needsRepair s a = true
    · rw [if_pos h]
      unfold needsRepair
      simp
    · rw [if_neg h]
      exact Bool.not_eq_true _ ▸ h
  refine ⟨?_, h2, ?_⟩
  · intro a ha hrep
    rw [halls]
    exact List.mem_map.mpr ⟨a, ha, by rw [if_pos hrep]⟩
  · have hcount : (reconcileAllocations now2 (reconcileAllocations now s).1).2
        = ((reconcileAllocations now s).1.allocations.filter
            (needsRepair (reconcileAllocations now s).1)).length := rfl
    rw [hcount, List.filter_eq_nil_iff.mpr (fun a ha => by rw [h2 a ha]; exact Bool.false_ne_true)]
    rfl

/-! ## C6 -/

/-- C6: `submit_process_file` accepts the finishing submission only when the
job's status is `in_review` (a successful call implies it was), and on
success the job moves to `completed` while every allocation of that job that
was still `active` — whatever its role — is closed with status `completed`
and `completed_at = now`; afterwards no allocation of the job remains
active. -/
theorem process_submit_closes_allocations (now : Int) (s s' : Store) (sysId : String)
    (u : Nat) (files : Nat) (mjob : MJob)
    (hjob : findJob s sysId = some mjob)
    (hok : submitProcessFile now s sysId u files = .ok s') :
    mjob.status = "in_review" ∧
    findJob s' sysId = some { mjob with status := "completed" } ∧
    (∀ a ∈ s.allocations, (a.marketingJob == sysId && a.status == "active") = true →
        { a with status := "completed", completedAt := some now } ∈ s'.allocations) ∧
    (∀ a ∈ s'.allocations, a.marketingJob = sysId → a.status ≠ "active") := by
  have hjob2 : s.jobs.find? (fun j => j.systemId == sysId) = some mjob := hjob
  unfold submitProcessFile at hok
  rw [hjob] at hok
  cases halloc : s.allocations.find? (fun a =>
      a.marketingJob == sysId && a.allocatedTo == u &&
      a.allocationType == "process" && a.status == "active") with
  | none =>
    rw [halloc] at hok
    exact Except.noConfusion hok
  | some av =>
    rw [halloc] at hok
    dsimp only at hok
    by_cases hst : (mjob.status != "in_review") = true
    · rw [if_pos hst] at hok
      exact Except.noConfusion hok
    · have hstatus : mjob.status = "in_review" := by simpa using hst
      rw [if_neg hst] at hok
      by_cases hf : (files == 0) = true
      · rw [if_pos hf] at hok
        exact Except.noConfusion hok
      · rw [if_neg hf] at hok
        injection hok with hok
        subst hok
        refine ⟨hstatus, ?_, ?_, ?_⟩
        · unfold findJob
          dsimp only
          rw [find?_map_comm s.jobs (fun j => j.systemId == sysId)
              (fun j => { j with status := "completed" }) (fun j h => h), hjob2]
          rfl
        · intro a ha hcond
          dsimp only
          exact List.mem_map.mpr ⟨a, ha, by rw [if_pos hcond]⟩
        · intro a' ha' hmj hstat
          dsimp only at ha'
          rcases List.mem_map.mp ha' with ⟨a, ha, rfl⟩
          by_cases hc : (a.marketingJob == sysId && a.status == "active") = true
          · rw [if_pos hc] at hstat
            simp at hstat
          · rw [if_neg hc] at hmj hstat
            exact hc (by simp [hmj, hstat])

/-- Witness for C6: in `reviewStore` the submission by process member 3
succeeds, the job completes, and both the writer allocation and the process
allocation — active beforehand — are closed as completed at instant 99. -/
theorem process_submit_closes_allocations_witness :
    findJob reviewStore "CH-AAAAAA" = some inReviewJob ∧
    submitProcessFile 99 reviewStore "CH-AAAAAA" 3 2 = .ok closedStore ∧
    (inReviewJob.status = "in_review" ∧
     findJob closedStore "CH-AAAAAA" = some { inReviewJob with status := "completed" } ∧
     (∀ a ∈ reviewStore.allocations,
        (a.marketingJob == "CH-AAAAAA" && a.status == "active") = true →
        { a with status := "completed", completedAt := some 99 } ∈ closedStore.allocations) ∧
     (∀ a ∈ closedStore.allocations, a.marketingJob = "CH-AAAAAA" → a.status ≠ "active")) :=
  ⟨by rfl, by rfl,
    process_submit_closes_allocations 99 reviewStore closedStore "CH-AAAAAA" 3 2 inReviewJob
      (by rfl) (by rfl)⟩

/-! ## C7 -/

/-- C7: a successful `switch_writer` on an allocation changes only the
assignee: the stored allocation keeps its aid, window, status and notes and
only `allocated_to` moves to the new writer; every other allocation row is
untouched and no row is added or removed; exactly one `reassigned`
action-log row is appended, carrying the old and the new assignee; and the
job rows pointing at the allocation's job get their denormalized
`allocated_to` pointer moved to the new writer. -/
theorem switch_writer_frame (s s' : Store) (allocationId nwid u : Nat)
    (alloc : JobAllocation)
    (hfound : findAllocation s allocationId = some alloc)
    (hok : switchWriter s allocationId (some nwid) u = .ok s') :
    s'.allocations.length = s.allocations.length ∧
    { alloc with allocatedTo := nwid } ∈ s'.allocations ∧
    (∀ a ∈ s.allocations, (a.aid == allocationId) = false → a ∈ s'.allocations) ∧
    s'.allocationActionLogs = s.allocationActionLogs ++
      [{ allocationAid := allocationId, action := "reassigned", performedBy := u,
         detailsOldAssignee := some alloc.allocatedTo,
         detailsNewAssignee := some nwid }] ∧
    (∀ j ∈ s.jobs, (j.systemId == alloc.marketingJob) = true →
        { j with allocatedTo := some nwid } ∈ s'.jobs) := by
  unfold switchWriter at hok
  rw [hfound] at hok
  dsimp only at hok
  cases huser : findUser s nwid "writer" with
  | none =>
    rw [huser] at hok
    exact Except.noConfusion hok
  | some w =>
    rw [huser] at hok
    dsimp only at hok
    have hw : w.uid = nwid := by
      have hp := List.find?_some huser
      simp only [Bool.and_eq_true, beq_iff_eq] at hp
      exact hp.1
    subst hw
    cases hjobfind : findJob s alloc.marketingJob with
    | none =>
      rw [hjobfind] at hok
      exact Except.noConfusion hok
    | some job =>
      rw [hjobfind] at hok
      dsimp only at hok
      by_cases hcl : (!(allocationCleanOk job { alloc with allocatedTo := w.uid })) = true
      · rw [if_pos hcl] at hok
        exact Except.noConfusion hok
      · rw [if_neg hcl] at hok
        injection hok with hok
        subst hok
        refine ⟨?_, ?_, ?_, ?_, ?_⟩
        · dsimp only
          rw [List.length_map]
        · dsimp only
          have hmem := List.mem_of_find?_eq_some hfound
          have hcond := List.find?_some hfound
          exact List.mem_map.mpr ⟨alloc, hmem, by rw [if_pos hcond]⟩
        · intro a ha hcond
          dsimp only
          refine List.mem_map.mpr ⟨a, ha, ?_⟩
          rw [if_neg]
          simp [hcond]
        · rfl
        · intro j hj hcond
          dsimp only
          exact List.mem_map.mpr ⟨j, hj, by rw [if_pos hcond]⟩

/-- Witness for C7: switching allocation 20 of `reassignStore` from writer 1
to writer 2 keeps the row count, carries the window and active status over,
leaves nothing else touched, logs exactly one `reassigned` row with old
assignee 1 and new assignee 2, and re-points the job at writer 2. -/
theorem switch_writer_frame_witness :
    findAllocation reassignStore 20 = some writerAlloc ∧
    switchWriter reassignStore 20 (some 2) 9 = .ok reassignedStore ∧
    (reassignedStore.allocations.length = reassignStore.allocations.length ∧
     { writerAlloc with allocatedTo := 2 } ∈ reassignedStore.allocations ∧
     (∀ a ∈ reassignStore.allocations, (a.aid == 20) = false →
        a ∈ reassignedStore.allocations) ∧
     reassignedStore.allocationActionLogs = reassignStore.allocationActionLogs ++
       [{ allocationAid := 20, action := "reassigned", performedBy := 9,
          detailsOldAssignee := some writerAlloc.allocatedTo,
          detailsNewAssignee := some 2 }] ∧
     (∀ j ∈ reassignStore.jobs, (j.systemId == writerAlloc.marketingJob) = true →
        { j with allocatedTo := some 2 } ∈ reassignedStore.jobs)) :=
  ⟨by rfl, by rfl,
    switch_writer_frame reassignStore reassignedStore 20 2 9 writerAlloc
      (by rfl) (by rfl)⟩

/-! ## C1 -/

/-- C1 (amended): `_process_job_allocation` performs no duplicate-active
check at all: a successful call always appends one more `active` allocation
for the job and the role it picked, however many active allocations for that
same (job, role) already exist, and no `ConflictError` /
`DuplicateActiveAllocation` code path exists in the function.  The
at-most-one-active invariant is therefore not enforced even for serialized
calls. -/
theorem allocate_no_duplicate_check (now : Int) (s s' : Store) (sysId : String)
    (mid : Nat) (startD endD : Int) (notes : String) (u : Nat) (job : MJob)
    (hjob : findJob s sysId = some job)
    (hok : processJobAllocation now s sysId (some mid) (some startD) (some endD)
      notes u = .ok s') :
    countActiveAllocations s' sysId (allocationTypeFor job)
      = countActiveAllocations s sysId (allocationTypeFor job) + 1 := by
  have hjob2 : s.jobs.find? (fun j => j.systemId == sysId) = some job := hjob
  have hsys : (job.systemId == sysId) = true := by
    have h := List.find?_some hjob2
    exact h
  unfold processJobAllocation at hok
  rw [hjob] at hok
  dsimp only at hok
  cases huser : findUser s mid (allocationTypeFor job) with
  | none =>
    rw [huser] at hok
    exact Except.noConfusion hok
  | some member =>
    rw [huser] at hok
    dsimp only at hok
    by_cases h1 : startD < now
    · rw [if_pos h1] at hok
      exact Except.noConfusion hok
    · rw [if_neg h1] at hok
      by_cases h2 : endD ≤ startD
      · rw [if_pos h2] at hok
        exact Except.noConfusion hok
      · rw [if_neg h2] at hok
        by_cases h3 : deadlineExceeded job endD = true
        · rw [if_pos h3] at hok
          exact Except.noConfusion hok
        · rw [if_neg h3] at hok
          injection hok with hok
          subst hok
          unfold countActiveAllocations
          dsimp only
          rw [List.filter_append]
          simp [hsys]

/-- Counterexample to C1 as stated: starting from `dupStore` (one unallocated
job, no allocation), two serialized `Allocate` calls for the same (job,
writer) pair both succeed — neither returns any conflict error — and leave
two `active` writer allocations on that single job. -/
theorem duplicate_active_allocation_counterexample :
    (((processJobAllocation 0 dupStore "CH-AAAAAA" (some 1) (some 10) (some 20) "" 9).bind
        (fun s1 => processJobAllocation 0 s1 "CH-AAAAAA" (some 2) (some 10) (some 20) "" 9)).map
      (fun s2 => countActiveAllocations s2 "CH-AAAAAA" "writer")) = .ok 2 := by rfl

/-- Witness for the amended C1: `dupStore1` already holds one active writer
allocation of the job, yet the second allocation call succeeds and raises the
active count for (job, writer) from 1 to 2. -/
theorem allocate_no_duplicate_check_witness :
    findJob dupStore1 "CH-AAAAAA" = some allocatedOnceJob ∧
    countActiveAllocations dupStore1 "CH-AAAAAA" "writer" = 1 ∧
    processJobAllocation 0 dupStore1 "CH-AAAAAA" (some 2) (some 10) (some 20) "" 9
      = .ok dupStore2 ∧
    countActiveAllocations dupStore2 "CH-AAAAAA" (allocationTypeFor allocatedOnceJob)
      = countActiveAllocations dupStore1 "CH-AAAAAA" (allocationTypeFor allocatedOnceJob) + 1 :=
  ⟨by rfl, by rfl, by rfl,
    allocate_no_duplicate_check 0 dupStore1 dupStore2 "CH-AAAAAA" 2 10 20 "" 9
      allocatedOnceJob (by rfl) (by rfl)⟩

/-! ## C3 -/

/-- C3 (amended): `_process_job_allocation` enforces no job-status
precondition and has no `JobNotInAssignableState` failure path.  It derives
the role purely from the current status — `"Review"` yields a process
allocation, every other status a writer allocation — and, given an existing
member of that role and a valid window, it succeeds for a job of any status
whatsoever, storing the job with the role's target status
(`process`/`allocated`) and assignee pointer. -/
theorem allocate_no_status_precondition (now : Int) (s : Store) (sysId : String)
    (mid : Nat) (startD endD : Int) (notes : String) (u : Nat) (job : MJob)
    (member : AUser)
    (hjob : findJob s sysId = some job)
    (huser : findUser s mid (allocationTypeFor job) = some member)
    (h1 : now ≤ startD) (h2 : startD < endD)
    (h3 : deadlineExceeded job endD = false) :
    ∃ s', processJobAllocation now s sysId (some mid) (some startD) (some endD) notes u
        = .ok s' ∧
      (if (job.status == "Review") = true then { job with status := "process", allocatedToProcess := some member.uid, allocatedToProcessAt := some now } else { job with status := "allocated", allocatedTo := some member.uid }) ∈ s'.jobs := by
  have hjob2 : s.jobs.find? (fun j => j.systemId == sysId) = some job := hjob
  unfold processJobAllocation
  rw [hjob]
  dsimp only
  rw [huser]
  dsimp only
  rw [if_neg (not_lt.mpr h1), if_neg (not_le.mpr h2), if_neg (by simp [h3])]
  refine ⟨_, rfl, ?_⟩
  dsimp only
  refine List.mem_map.mpr ⟨job, List.mem_of_find?_eq_some hjob2, ?_⟩
  rw [if_pos (beq_self_eq_true job.systemId)]
  unfold allocationTypeFor
  by_cases hrev : (job.status == "Review") = true
  · simp [hrev]
  · simp [hrev]

/-- Counterexample to C3 as stated: allocating the job of
`completedJobStore` — whose status is `completed`, legally preceding
neither role's assignment — succeeds anyway: the call returns ok, an active
writer allocation is created, and the completed job is pulled back to status
`allocated`; no `JobNotInAssignableState` error occurs. -/
theorem allocate_any_status_counterexample :
    (processJobAllocation 0 completedJobStore "CH-AAAAAA" (some 1) (some 10) (some 20) "" 9).map
      (fun s' => ((findJob s' "CH-AAAAAA").map (fun j => j.status),
                  countActiveAllocations s' "CH-AAAAAA" "writer"))
      = .ok (some "allocated", 1) := by rfl

/-- Witness for the amended C3 at the concrete completed job. -/
theorem allocate_no_status_precondition_witness :
    findJob completedJobStore "CH-AAAAAA" = some completedJob ∧
    findUser completedJobStore 1 (allocationTypeFor completedJob) = some ⟨1, "writer"⟩ ∧
    (0 : Int) ≤ 10 ∧ (10 : Int) < 20 ∧ deadlineExceeded completedJob 20 = false ∧
    (∃ s', processJobAllocation 0 completedJobStore "CH-AAAAAA" (some 1) (some 10) (some 20) "" 9
        = .ok s' ∧
      (if (completedJob.status == "Review") = true then { completedJob with status := "process", allocatedToProcess := some (AUser.mk 1 "writer").uid, allocatedToProcessAt := some 0 } else { completedJob with status := "allocated", allocatedTo := some (AUser.mk 1 "writer").uid }) ∈ s'.jobs) :=
  ⟨by rfl, by rfl, by decide, by decide, by rfl,
    allocate_no_status_precondition 0 completedJobStore "CH-AAAAAA" 1 10 20 "" 9
      completedJob ⟨1, "writer"⟩ (by rfl) (by rfl) (by decide) (by decide) (by rfl)⟩

/-! ## C4 -/

/-- C4: after each successful summary generation the reported degree equals
the number of the five result fields {topic, wordCount, referencingStyle,
writingStyle, summaryText} that are empty/null (so 0..5), the version is the
incremented one; degree 0 auto-accepts AND signals the advance (redirect),
storing the job with status `pending` and the new degree; a non-zero degree
at version ≥ 3 auto-accepts without the advance signal; and a non-zero
degree below version 3 does not auto-accept. -/
theorem summary_gate_degree_and_auto_accept (now : Int) (s s' : Store) (sysId : String)
    (u : Nat) (res : SummaryResult) (info : GenerationInfo) (job : MJob)
    (hjob : s.jobs.find? (fun j => j.systemId == sysId && j.createdBy == u) = some job)
    (hok : generateAiSummary now s sysId u res = .ok (s', info)) :
    info.degree = ([strPresent res.topic, intPresent res.wordCount,
        strPresent res.referencingStyle, strPresent res.writingStyle,
        strPresent res.jobSummary].filter (fun b => !b)).length ∧
    info.degree ≤ 5 ∧
    info.version = job.aiSummaryVersion + 1 ∧
    (info.degree = 0 → info.autoAccepted = true ∧ info.autoRedirect = true ∧
      (∃ j' ∈ s'.jobs, j'.systemId = job.systemId ∧ j'.status = "pending" ∧
        j'.jobCardDegree = info.degree)) ∧
    (info.degree ≠ 0 → 3 ≤ info.version →
      info.autoAccepted = true ∧ info.autoRedirect = false) ∧
    (info.degree ≠ 0 → info.version < 3 → info.autoAccepted = false) := by
  have hmem : job ∈ s.jobs := List.mem_of_find?_eq_some hjob
  unfold generateAiSummary at hok
  rw [hjob] at hok
  dsimp only at hok
  by_cases hcr : (!(canRegenerateSummary job)) = true
  · rw [if_pos hcr] at hok
    exact Except.noConfusion hok
  · rw [if_neg hcr] at hok
    injection hok with hok
    rw [Prod.mk.injEq] at hok
    obtain ⟨hs, hi⟩ := hok
    subst hs
    subst hi
    dsimp only
    refine ⟨rfl, List.length_filter_le _ _, rfl, ?_, ?_, ?_⟩
    · intro h0
      rw [h0]
      refine ⟨rfl, rfl, ?_⟩
      refine ⟨_, List.mem_map.mpr ⟨job, hmem, rfl⟩, ?_, ?_, ?_⟩
      · simp [beq_self_eq_true]
      · simp [beq_self_eq_true]
      · simp [beq_self_eq_true, h0]
    · intro hD hV
      constructor
      · simp
        omega
      · simpa using hD
    · intro hD hV
      simp [hD, decide_eq_false (not_le.mpr hV)]
      omega

/-- Witness for C4 at a concrete input: generating a summary whose five
fields are all present on the draft job yields degree 0, auto-accept and the
advance signal, and the stored job is `pending`. -/
theorem summary_gate_degree_and_auto_accept_witness :
    draftStore.jobs.find? (fun j => j.systemId == "CH-AAAAAA" && j.createdBy == 7)
      = some baseJob ∧
    generateAiSummary 5 draftStore "CH-AAAAAA" 7 fullResult
      = .ok (genResultPair.1, genResultPair.2) ∧
    (genResultPair.2.degree = ([strPresent fullResult.topic, intPresent fullResult.wordCount,
        strPresent fullResult.referencingStyle, strPresent fullResult.writingStyle,
        strPresent fullResult.jobSummary].filter (fun b => !b)).length ∧
     genResultPair.2.degree ≤ 5 ∧
     genResultPair.2.version = baseJob.aiSummaryVersion + 1 ∧
     (genResultPair.2.degree = 0 → genResultPair.2.autoAccepted = true ∧
        genResultPair.2.autoRedirect = true ∧
        (∃ j' ∈ genResultPair.1.jobs, j'.systemId = baseJob.systemId ∧
          j'.status = "pending" ∧ j'.jobCardDegree = genResultPair.2.degree)) ∧
     (genResultPair.2.degree ≠ 0 → 3 ≤ genResultPair.2.version →
        genResultPair.2.autoAccepted = true ∧ genResultPair.2.autoRedirect = false) ∧
     (genResultPair.2.degree ≠ 0 → genResultPair.2.version < 3 →
        genResultPair.2.autoAccepted = false)) :=
  ⟨by rfl, by rfl,
    summary_gate_degree_and_auto_accept 5 draftStore genResultPair.1 "CH-AAAAAA" 7
      fullResult genResultPair.2 baseJob (by rfl) (by rfl)⟩

end CRM
